import Mathlib

/-!
Verification development for the weather-app repository
(`src/weather_app/{weather,cli,exceptions}.py`).

The Python code is shallowly embedded: JSON payloads become an inductive
`J` of Python/JSON values, the pydantic models become Lean structures
with explicit validators translated from pydantic v2 lax-mode semantics
(the repository depends on pydantic v2: its tests call `model_dump` and
its configuration module imports `pydantic_settings`), and the client
and command-line functions become pure Lean functions over an explicit
`Transport` input standing for the outcome of the HTTP call.

Python floats are modelled as exact decimal fractions (`PyFloat`,
an unnormalized integer numerator/denominator pair): every float literal
appearing in this development is a short decimal, on which conversion to
an IEEE double and back via the CPython shortest round-trip repr is the
identity.
-/

namespace WeatherApp

/-- Python float, modelled as an exact fraction `num / den` with `den > 0`.
All floats exercised in this development are exact short decimals. -/
structure PyFloat where
  num : Int
  den : Int

/-- A Python value as produced by `response.json()`: JSON scalars,
arrays and objects, with Python `bool`, `int`, `float` and `str`
kept distinct (pydantic v2 validation distinguishes them). -/
inductive J where
  | null
  | b (v : Bool)
  | i (n : Int)
  | f (num den : Int)
  | s (v : String)
  | arr (xs : List J)
  | obj (kvs : List (String × J))

/-- Dictionary lookup, `d.get(key)`: first binding wins (payload objects
are assumed duplicate-free, as JSON objects decoded by Python are). -/
def jget (kvs : List (String × J)) (key : String) : Option J :=
  match kvs with
  | [] => none
  | (k, v) :: rest => if k == key then some v else jget rest key

/-- Python numeric equality `v == n` between a payload value and an int
literal: ints and floats compare by value, `bool` is an `int` subclass
(`True == 1`), strings and containers never equal a number. -/
def pyEqNum (v : J) (n : Int) : Bool :=
  match v with
  | .i m => m == n
  | .f a b => a == n * b
  | .b bv => (if bv then (1 : Int) else 0) == n
  | _ => false

/-- Characters stripped by Python `str.strip()` (the ASCII whitespace
actually exercised here). -/
def isPySpace (c : Char) : Bool :=
  c == ' ' || c == '\t' || c == '\n' || c == '\r'

/-- Python `str.strip()`. -/
def pyStrip (s : String) : String :=
  String.mk (((s.toList.dropWhile isPySpace).reverse.dropWhile isPySpace).reverse)

/-- Python `str.split(sep)` for a one-character separator, on the
character list: `"".split(",") == [""]`, empty segments are kept. -/
def pySplitChar (sep : Char) : List Char → List (List Char)
  | [] => [[]]
  | c :: rest =>
    let r := pySplitChar sep rest
    if c == sep then [] :: r
    else
      match r with
      | g :: gs => (c :: g) :: gs
      | [] => [[c]]

/-- Whether a string contains a comma (Python `"," in location`). -/
def containsComma (s : String) : Bool :=
  s.toList.any (fun c => c == ',')

/-- Accumulator loop of `digitsToNat`. -/
def digitsToNatAux : List Char → Nat → Option Nat
  | [], acc => some acc
  | c :: rest, acc =>
    if c.isDigit then digitsToNatAux rest (acc * 10 + (c.toNat - 48)) else none

/-- Digit run to a natural number; fails on a non-digit or an empty run. -/
def digitsToNat : List Char → Option Nat
  | [] => none
  | cs => digitsToNatAux cs 0

/-- Python `int(s)` for a base-10 string: surrounding whitespace is
ignored, an optional sign is allowed, anything else raises `ValueError`
(digit-group underscores are not exercised by this repository). -/
def pyIntOfString (s : String) : Except String Int :=
  let t := (pyStrip s).toList
  match t with
  | '+' :: ds =>
    match digitsToNat ds with
    | some n => .ok (Int.ofNat n)
    | none => .error ("invalid literal for int() with base 10: " ++ s)
  | '-' :: ds =>
    match digitsToNat ds with
    | some n => .ok (-(Int.ofNat n))
    | none => .error ("invalid literal for int() with base 10: " ++ s)
  | ds =>
    match digitsToNat ds with
    | some n => .ok (Int.ofNat n)
    | none => .error ("invalid literal for int() with base 10: " ++ s)

/-- Round `num / den` (with `den > 0`) to the nearest multiple of one
tenth, half to even, returning the result in tenths — the rounding used
by Python `format(x, ...)` fixed-point formatting. -/
def roundHalfEvenTenths (num den : Int) : Int :=
  let a := num * 10
  let f := Int.fdiv a den
  let r := a - f * den
  if 2 * r < den then f
  else if 2 * r > den then f + 1
  else if Int.emod f 2 == 0 then f else f + 1

/-- Python fixed-point formatting of `num / den` with one decimal place,
as in an f-string `{x:.1f}` (`den > 0`; the negative-zero corner of
CPython, `-0.04` rendering as `"-0.0"`, is not exercised here). -/
def fmtFixed1 (num den : Int) : String :=
  let k := roundHalfEvenTenths num den
  if k < 0 then
    "-" ++ toString (Int.tdiv (-k) 10) ++ "." ++ toString (Int.tmod (-k) 10)
  else
    toString (Int.tdiv k 10) ++ "." ++ toString (Int.tmod k 10)

/-- Left-pad a digit string with zeros to the requested width. -/
def padLeftZeros (width : Nat) (s : String) : String :=
  String.mk (List.replicate (width - s.length) '0') ++ s

/-- Smallest `k` (up to the fuel) with `num * 10 ^ k` divisible by
`den`, together with the quotient. For every IEEE double the loop
terminates well inside the fuel, since such a denominator is a power of
two not exceeding `2 ^ 1074`. -/
def pyFloatDigits : Int → Int → Nat → Nat → Option (Int × Nat)
  | _, _, _, 0 => none
  | num, den, k, fuel + 1 =>
    if Int.emod num den == 0 then some (Int.tdiv num den, k)
    else pyFloatDigits (num * 10) den (k + 1) fuel

/-- Rendering of a nonnegative exact-decimal float, minimal digits with
at least one decimal place — `str(10.0) == "10.0"`, `str(3.6) == "3.6"`. -/
def pyFloatStrNonneg (num den : Int) : String :=
  match pyFloatDigits num den 0 1100 with
  | some (d, 0) => toString d ++ ".0"
  | some (d, Nat.succ k) =>
    let p : Int := (10 : Int) ^ (k + 1)
    toString (Int.tdiv d p) ++ "." ++ padLeftZeros (k + 1) (toString (Int.tmod d p))
  | none => toString num ++ "/" ++ toString den

/-- Python `str(x)` for a float `x = num / den` (`den > 0`): the CPython
shortest round-trip repr, which on the exact short decimals modelled
here is the minimal-digit decimal rendering. -/
def pyFloatStr (x : PyFloat) : String :=
  if x.num < 0 then "-" ++ pyFloatStrNonneg (-x.num) x.den else pyFloatStrNonneg x.num x.den

/-- Python `str(v)` of a payload value, as interpolated by an f-string.
The container cases are rendered structurally with double-quoted
strings; no theorem below interpolates a container (CPython repr quotes
with a single-quote character). -/
def pyStr : J → String
  | .null => "None"
  | .b true => "True"
  | .b false => "False"
  | .i n => toString n
  | .f a b => pyFloatStr ⟨a, b⟩
  | .s v => v
  | .arr _ => "[...]"
  | .obj _ => "\x7b...\x7d"

/-- Unsigned decimal literal `digits[.digits]` as an exact fraction
(the forms `"1."` and `".5"`, exponents, `inf` and `nan` are accepted
by Python but not exercised by this repository). -/
def parseUnsignedDec (cs : List Char) : Option PyFloat :=
  match pySplitChar '.' cs with
  | [ip] => (digitsToNat ip).map (fun n => ⟨Int.ofNat n, 1⟩)
  | [ip, fp] =>
    match digitsToNat ip, digitsToNat fp with
    | some a, some b =>
      some ⟨Int.ofNat (a * 10 ^ fp.length + b), Int.ofNat (10 ^ fp.length)⟩
    | _, _ => none
  | _ => none

/-- Signed decimal literal, as accepted by Python `float(s)`. -/
def parseDecString (s : String) : Option PyFloat :=
  match (pyStrip s).toList with
  | '+' :: cs => parseUnsignedDec cs
  | '-' :: cs => (parseUnsignedDec cs).map (fun x => ⟨-x.num, x.den⟩)
  | cs => parseUnsignedDec cs

/-- Validation of an `int` field under pydantic v2 lax mode: ints pass,
bools are rejected, floats pass exactly when integral, numeric strings
are parsed; everything else is rejected. -/
def validateInt : J → Except String Int
  | .i n => .ok n
  | .b _ => .error "Input should be a valid integer"
  | .f a b =>
    if Int.emod a b == 0 then .ok (Int.tdiv a b)
    else .error "Input should be a valid integer, got a number with a fractional part"
  | .s str =>
    match pyIntOfString str with
    | .ok n => .ok n
    | .error _ => .error "Input should be a valid integer, unable to parse string as an integer"
  | _ => .error "Input should be a valid integer"

/-- Validation of a `float` field under pydantic v2 lax mode: floats and
ints pass, bools are rejected, numeric strings are parsed. -/
def validateFloat : J → Except String PyFloat
  | .f a b => .ok ⟨a, b⟩
  | .i n => .ok ⟨n, 1⟩
  | .b _ => .error "Input should be a valid number"
  | .s str =>
    match parseDecString str with
    | some x => .ok x
    | none => .error "Input should be a valid number, unable to parse string as a number"
  | _ => .error "Input should be a valid number"

/-- Validation of a `str` field under pydantic v2 lax mode: unlike v1,
numbers are not coerced to strings. -/
def validateStr : J → Except String String
  | .s v => .ok v
  | _ => .error "Input should be a valid string"

/-- Error contribution of a required scalar field: pydantic reports
`Field required` when the key is absent, and the field validator message
otherwise. Error locations are flattened to `key: message` strings. -/
def reqErrsS {α : Type} (o : List (String × J)) (key : String)
    (vf : J → Except String α) : List String :=
  match jget o key with
  | none => [key ++ ": Field required"]
  | some v =>
    match vf v with
    | .ok _ => []
    | .error e => [key ++ ": " ++ e]

/-- Error contribution of a required nested-model field; nested
locations are flattened to `key.inner` strings. -/
def reqErrsE {α : Type} (o : List (String × J)) (key : String)
    (vf : J → Except (List String) α) : List String :=
  match jget o key with
  | none => [key ++ ": Field required"]
  | some v =>
    match vf v with
    | .ok _ => []
    | .error es => es.map (fun e => key ++ "." ++ e)

/-- Error contribution of an `Optional[...]` scalar field with default
`None`: absent and `null` are both fine. -/
def optErrs {α : Type} (o : List (String × J)) (key : String)
    (vf : J → Except String α) : List String :=
  match jget o key with
  | none => []
  | some .null => []
  | some v =>
    match vf v with
    | .ok _ => []
    | .error e => [key ++ ": " ++ e]

/-- Validated value of a required scalar field; the default is only ever
used on the error path, which the construction guard makes unreachable. -/
def reqGetS {α : Type} (o : List (String × J)) (key : String)
    (vf : J → Except String α) (d : α) : α :=
  match jget o key with
  | none => d
  | some v =>
    match vf v with
    | .ok a => a
    | .error _ => d

/-- Validated value of a required nested-model field. -/
def reqGetE {α : Type} (o : List (String × J)) (key : String)
    (vf : J → Except (List String) α) (d : α) : α :=
  match jget o key with
  | none => d
  | some v =>
    match vf v with
    | .ok a => a
    | .error _ => d

/-- Validated value of an `Optional[...]` scalar field, `none` when the
key is absent or `null`. -/
def optGet {α : Type} (o : List (String × J)) (key : String)
    (vf : J → Except String α) : Option α :=
  match jget o key with
  | none => none
  | some .null => none
  | some v =>
    match vf v with
    | .ok a => some a
    | .error _ => none

/-- Embeds `weather.WeatherCondition`. -/
structure WeatherCondition where
  id : Int
  main : String
  description : String
  icon : String

/-- Embeds `weather.MainWeatherData`. -/
structure MainWeatherData where
  temp : PyFloat
  feels_like : PyFloat
  temp_min : PyFloat
  temp_max : PyFloat
  pressure : Int
  humidity : Int
  sea_level : Option Int
  grnd_level : Option Int

/-- Embeds `weather.WindData`: in the source, `deg` is a required `int`
field (`deg: int`, no `Optional`, no default). -/
structure WindData where
  speed : PyFloat
  deg : Int
  gust : Option PyFloat

/-- Embeds `weather.CloudData`. -/
structure CloudData where
  all : Int

/-- Embeds `weather.SystemData`. -/
structure SystemData where
  type : Option Int
  id : Option Int
  country : String
  sunrise : Int
  sunset : Int

/-- Embeds `weather.WeatherResponse`: in the source, `visibility` is a
required `int` field, and no `rain` or `snow` field is declared (extra
payload keys are dropped by the default pydantic configuration). -/
structure WeatherResponse where
  coord : List (String × PyFloat)
  weather : List WeatherCondition
  base : String
  main : MainWeatherData
  visibility : Int
  wind : WindData
  clouds : CloudData
  dt : Int
  sys : SystemData
  timezone : Int
  id : Int
  name : String
  cod : Int

/-- Per-field error lists of `WeatherCondition`. -/
def conditionParts (o : List (String × J)) : List (List String) :=
  [ reqErrsS o "id" validateInt
  , reqErrsS o "main" validateStr
  , reqErrsS o "description" validateStr
  , reqErrsS o "icon" validateStr ]

/-- Collected validation errors of `WeatherCondition`. -/
def conditionErrors (o : List (String × J)) : List String :=
  (conditionParts o).flatten

/-- Field extraction of `WeatherCondition`, used once validation found
no errors. -/
def buildCondition (o : List (String × J)) : WeatherCondition :=
  { id := reqGetS o "id" validateInt 0
  , main := reqGetS o "main" validateStr ""
  , description := reqGetS o "description" validateStr ""
  , icon := reqGetS o "icon" validateStr "" }

/-- Validation of one `WeatherCondition` object. -/
def validateWeatherCondition : J → Except (List String) WeatherCondition
  | .obj o =>
    match conditionErrors o with
    | [] => .ok (buildCondition o)
    | es => .error es
  | _ => .error ["Input should be a valid dictionary"]

/-- Validation of `list[WeatherCondition]` elements, collecting errors
across elements (element indices are omitted from the locations). -/
def validateConditionListAux : List J → Except (List String) (List WeatherCondition)
  | [] => .ok []
  | x :: rest =>
    match validateWeatherCondition x, validateConditionListAux rest with
    | .ok c, .ok cs => .ok (c :: cs)
    | .error es, .ok _ => .error es
    | .ok _, .error es => .error es
    | .error es, .error es2 => .error (es ++ es2)

/-- Validation of a `list[WeatherCondition]` field. -/
def validateConditionList : J → Except (List String) (List WeatherCondition)
  | .arr xs => validateConditionListAux xs
  | _ => .error ["Input should be a valid list"]

/-- Validation of `Dict[str, float]` entries, collecting errors. -/
def validateFloatDictAux : List (String × J) → Except (List String) (List (String × PyFloat))
  | [] => .ok []
  | (k, v) :: rest =>
    match validateFloat v, validateFloatDictAux rest with
    | .ok x, .ok xs => .ok ((k, x) :: xs)
    | .error e, .ok _ => .error [k ++ ": " ++ e]
    | .ok _, .error es => .error es
    | .error e, .error es => .error ((k ++ ": " ++ e) :: es)

/-- Validation of a `Dict[str, float]` field. -/
def validateFloatDict : J → Except (List String) (List (String × PyFloat))
  | .obj o => validateFloatDictAux o
  | _ => .error ["Input should be a valid dictionary"]

/-- Per-field error lists of `MainWeatherData`. -/
def mainParts (o : List (String × J)) : List (List String) :=
  [ reqErrsS o "temp" validateFloat
  , reqErrsS o "feels_like" validateFloat
  , reqErrsS o "temp_min" validateFloat
  , reqErrsS o "temp_max" validateFloat
  , reqErrsS o "pressure" validateInt
  , reqErrsS o "humidity" validateInt
  , optErrs o "sea_level" validateInt
  , optErrs o "grnd_level" validateInt ]

/-- Collected validation errors of `MainWeatherData`. -/
def mainErrors (o : List (String × J)) : List String :=
  (mainParts o).flatten

/-- Field extraction of `MainWeatherData`. -/
def buildMain (o : List (String × J)) : MainWeatherData :=
  { temp := reqGetS o "temp" validateFloat ⟨0, 1⟩
  , feels_like := reqGetS o "feels_like" validateFloat ⟨0, 1⟩
  , temp_min := reqGetS o "temp_min" validateFloat ⟨0, 1⟩
  , temp_max := reqGetS o "temp_max" validateFloat ⟨0, 1⟩
  , pressure := reqGetS o "pressure" validateInt 0
  , humidity := reqGetS o "humidity" validateInt 0
  , sea_level := optGet o "sea_level" validateInt
  , grnd_level := optGet o "grnd_level" validateInt }

/-- Validation of a `MainWeatherData` object. -/
def validateMainWeatherData : J → Except (List String) MainWeatherData
  | .obj o =>
    match mainErrors o with
    | [] => .ok (buildMain o)
    | es => .error es
  | _ => .error ["Input should be a valid dictionary"]

/-- Per-field error lists of `WindData`: `speed` and `deg` are required,
`gust` is optional. -/
def windParts (o : List (String × J)) : List (List String) :=
  [ reqErrsS o "speed" validateFloat
  , reqErrsS o "deg" validateInt
  , optErrs o "gust" validateFloat ]

/-- Collected validation errors of `WindData`. -/
def windErrors (o : List (String × J)) : List String :=
  (windParts o).flatten

/-- Field extraction of `WindData`. -/
def buildWind (o : List (String × J)) : WindData :=
  { speed := reqGetS o "speed" validateFloat ⟨0, 1⟩
  , deg := reqGetS o "deg" validateInt 0
  , gust := optGet o "gust" validateFloat }

/-- Validation of a `WindData` object. -/
def validateWindData : J → Except (List String) WindData
  | .obj o =>
    match windErrors o with
    | [] => .ok (buildWind o)
    | es => .error es
  | _ => .error ["Input should be a valid dictionary"]

/-- Validation of a `CloudData` object. -/
def validateCloudData : J → Except (List String) CloudData
  | .obj o =>
    match reqErrsS o "all" validateInt with
    | [] => .ok { all := reqGetS o "all" validateInt 0 }
    | es => .error es
  | _ => .error ["Input should be a valid dictionary"]

/-- Per-field error lists of `SystemData`. -/
def sysParts (o : List (String × J)) : List (List String) :=
  [ optErrs o "type" validateInt
  , optErrs o "id" validateInt
  , reqErrsS o "country" validateStr
  , reqErrsS o "sunrise" validateInt
  , reqErrsS o "sunset" validateInt ]

/-- Collected validation errors of `SystemData`. -/
def sysErrors (o : List (String × J)) : List String :=
  (sysParts o).flatten

/-- Field extraction of `SystemData`. -/
def buildSys (o : List (String × J)) : SystemData :=
  { type := optGet o "type" validateInt
  , id := optGet o "id" validateInt
  , country := reqGetS o "country" validateStr ""
  , sunrise := reqGetS o "sunrise" validateInt 0
  , sunset := reqGetS o "sunset" validateInt 0 }

/-- Validation of a `SystemData` object. -/
def validateSystemData : J → Except (List String) SystemData
  | .obj o =>
    match sysErrors o with
    | [] => .ok (buildSys o)
    | es => .error es
  | _ => .error ["Input should be a valid dictionary"]

/-- Per-field error lists of `WeatherResponse`, field order as declared
in the source model. -/
def weatherResponseParts (o : List (String × J)) : List (List String) :=
  [ reqErrsE o "coord" validateFloatDict
  , reqErrsE o "weather" validateConditionList
  , reqErrsS o "base" validateStr
  , reqErrsE o "main" validateMainWeatherData
  , reqErrsS o "visibility" validateInt
  , reqErrsE o "wind" validateWindData
  , reqErrsE o "clouds" validateCloudData
  , reqErrsS o "dt" validateInt
  , reqErrsE o "sys" validateSystemData
  , reqErrsS o "timezone" validateInt
  , reqErrsS o "id" validateInt
  , reqErrsS o "name" validateStr
  , reqErrsS o "cod" validateInt ]

/-- Collected validation errors of `WeatherResponse`; pydantic collects
the errors of every field before failing. -/
def weatherResponseErrors (o : List (String × J)) : List String :=
  (weatherResponseParts o).flatten

/-- Field extraction of `WeatherResponse`. -/
def buildWeatherResponse (o : List (String × J)) : WeatherResponse :=
  { coord := reqGetE o "coord" validateFloatDict []
  , weather := reqGetE o "weather" validateConditionList []
  , base := reqGetS o "base" validateStr ""
  , main := reqGetE o "main" validateMainWeatherData (buildMain [])
  , visibility := reqGetS o "visibility" validateInt 0
  , wind := reqGetE o "wind" validateWindData (buildWind [])
  , clouds := reqGetE o "clouds" validateCloudData { all := 0 }
  , dt := reqGetS o "dt" validateInt 0
  , sys := reqGetE o "sys" validateSystemData (buildSys [])
  , timezone := reqGetS o "timezone" validateInt 0
  , id := reqGetS o "id" validateInt 0
  , name := reqGetS o "name" validateStr ""
  , cod := reqGetS o "cod" validateInt 0 }

/-- Embeds `WeatherResponse(**data)`: succeeds exactly when no field
reports an error, and otherwise raises `pydantic.ValidationError`
carrying all collected errors. Keys not declared by the model (such as
`rain` and `snow`) are ignored and dropped. -/
def validateWeatherResponse (o : List (String × J)) : Except (List String) WeatherResponse :=
  match weatherResponseErrors o with
  | [] => .ok (buildWeatherResponse o)
  | es => .error es

/-- Outcome of the transport layer inside `get_weather_by_city`:
`fail` stands for a `requests.exceptions.RequestException` raised by
`session.get`, `raise_for_status` or `response.json` (connection error,
timeout, HTTP-level failure, malformed body), carrying the status code
of the attached response when one exists (`e.response` may be `None`);
`success` stands for a 2xx response with a JSON object body. -/
inductive Transport where
  | fail (respStatus : Option Int) (msg : String)
  | success (body : List (String × J))

/-- Exceptions that can escape `get_weather_by_city`, one case per class
of `exceptions.py` that is actually raised plus `pydantic.ValidationError`
and the builtin `TypeError`/`ValueError` (which are not `WeatherAppError`
subclasses). `apiError` and `rateLimitExceededError` store the status
value as passed (the dispatcher does not constrain its type);
`invalidAPIKeyError` stores the `401` its own initializer hard-codes. -/
inductive ClientError where
  | apiError (status : J) (message : J)
  | invalidAPIKeyError (status : Int) (message : String)
  | locationNotFoundError (message : String)
  | rateLimitExceededError (status : J) (message : J)
  | validationError (errs : List String)
  | typeError (message : String)
  | valueError (message : String)

/-- Embeds the normalization line of `_handle_api_error`:
`int(status_code) if isinstance(status_code, str) else status_code`.
A non-numeric string makes `int` raise `ValueError`. -/
def normalizeCod : J → Except String J
  | .s str => (pyIntOfString str).map J.i
  | v => .ok v

/-- Embeds `WeatherClient._handle_api_error`. The 401 branch calls
`exceptions.InvalidAPIKeyError(status_code_int, message)` with two
positional arguments, but that class declares `def __init__(self,
message)` — so the call itself raises `TypeError` and no
`InvalidAPIKeyError` is ever constructed. The 404 branch builds
`LocationNotFoundError(f"Location not found: {message}")`; 429 and the
default branch call initializers whose arity matches. -/
def handle_api_error (status_code : J) (message : J) : ClientError :=
  match normalizeCod status_code with
  | .error e => .valueError e
  | .ok sci =>
    if pyEqNum sci 401 then
      .typeError "InvalidAPIKeyError.__init__() takes 2 positional arguments but 3 were given"
    else if pyEqNum sci 404 then
      .locationNotFoundError ("Location not found: " ++ pyStr message)
    else if pyEqNum sci 429 then
      .rateLimitExceededError sci message
    else
      .apiError sci message

/-- Python `data.get("cod") != 200`: true when the key is absent
(`None != 200`) or the value does not numerically equal 200 — note that
the string `"200"` is not numerically equal to the int `200`. -/
def codNe200 (ov : Option J) : Bool :=
  match ov with
  | some v => !(pyEqNum v 200)
  | none => true

/-- Embeds `WeatherClient.get_weather_by_city` from the network call on:
a transport-level `RequestException` is re-raised as
`APIError(getattr(e.response, "status_code", 500), str(e))`; otherwise
the payload takes the failure dispatch when `data.get("cod") != 200`,
with `data.get("cod", 500)` and `data.get("message", "Unknown error")`
as dispatcher arguments, and is validated into a `WeatherResponse`
otherwise. (Query construction is modelled separately by `queryTerm`.) -/
def get_weather_by_city : Transport → Except ClientError WeatherResponse
  | .fail respStatus msg => .error (.apiError (J.i (respStatus.getD 500)) (J.s msg))
  | .success data =>
    if codNe200 (jget data "cod") then
      .error (handle_api_error ((jget data "cod").getD (J.i 500))
        ((jget data "message").getD (J.s "Unknown error")))
    else
      match validateWeatherResponse data with
      | .ok w => .ok w
      | .error es => .error (.validationError es)

/-- Embeds the query-term construction of `get_weather_by_city`:
`params["q"] = f"{city},{country_code}" if country_code else city`,
where both `None` and the empty string are falsy. -/
def queryTerm (city : String) (country_code : Option String) : String :=
  match country_code with
  | some cc => if cc == "" then city else city ++ "," ++ cc
  | none => city

/-- Embeds the location handling of `cli.get`: when the location
contains a comma it is split on commas, every part is stripped, the
first part becomes the city and the second (always present, since the
split of a comma-containing string has at least two parts) replaces the
`--country` option; parts beyond the second are unused. -/
def cliSplitLocation (location : String) (country : Option String) :
    String × Option String :=
  if containsComma location then
    let location_parts := (pySplitChar ',' location.toList).map (fun p => pyStrip (String.mk p))
    match location_parts with
    | city :: second :: _ => (city, some second)
    | [city] => (city, country)
    | [] => ("", country)
  else (location, country)

/-- Output dictionary of `cli.format_weather_data`, flattened: one field
per leaf of the returned nested dict, in source order. -/
structure FormattedOutput where
  city : String
  country : String
  lat : PyFloat
  lon : PyFloat
  weather_main : String
  weather_description : String
  weather_icon : String
  temp_current : PyFloat
  temp_feels_like : PyFloat
  temp_min : PyFloat
  temp_max : PyFloat
  temp_unit : String
  pressure : String
  humidity : String
  visibility : String
  wind_speed : String
  wind_degree : Option Int
  wind_gust : Option PyFloat
  clouds : String
  rain : Option J
  snow : Option J
  sun_sunrise : String
  sun_sunset : String
  timezone : Option Int
  timestamp : String

/-- Embeds `cli.format_weather_data`. `isoLocal` stands for
`datetime.fromtimestamp(...).isoformat()` (local-zone rendering) and
`now` for `datetime.now().isoformat()`. The result is `none` exactly
when `weather_data.coord["lat"]` or `["lon"]` raises `KeyError` or
`weather_data.weather[0]` raises `IndexError`. The `hasattr` probes on
`deg`, `gust`, `clouds` and `timezone` are always true, since those are
declared model fields; the probes on `rain` and `snow` are always
false, since `WeatherResponse` declares no such fields and the pydantic
configuration drops extra payload keys, so both render as `None`. -/
def format_weather_data (w : WeatherResponse) (units : String)
    (isoLocal : Int → String) (now : String) : Option FormattedOutput :=
  let temp_unit := if units == "metric" then "°C" else "°F"
  let speed_unit := if units == "metric" then "m/s" else "mph"
  match List.lookup "lat" w.coord, List.lookup "lon" w.coord, w.weather with
  | some la, some lo, w0 :: _ =>
    some
      { city := w.name
      , country := w.sys.country
      , lat := la
      , lon := lo
      , weather_main := w0.main
      , weather_description := w0.description
      , weather_icon := w0.icon
      , temp_current := w.main.temp
      , temp_feels_like := w.main.feels_like
      , temp_min := w.main.temp_min
      , temp_max := w.main.temp_max
      , temp_unit := temp_unit
      , pressure := toString w.main.pressure ++ " hPa"
      , humidity := toString w.main.humidity ++ "%"
      , visibility :=
          if w.visibility != 0 then fmtFixed1 w.visibility 1000 ++ " km" else "N/A"
      , wind_speed := pyFloatStr w.wind.speed ++ " " ++ speed_unit
      , wind_degree := some w.wind.deg
      , wind_gust := w.wind.gust
      , clouds := toString w.clouds.all ++ "%"
      , rain := none
      , snow := none
      , sun_sunrise := isoLocal w.sys.sunrise
      , sun_sunset := isoLocal w.sys.sunset
      , timezone := some w.timezone
      , timestamp := now }
  | _, _, _ => none

/-- Which of the escaping exceptions are `WeatherAppError` instances and
therefore caught by the first `except` clause of `cli.get`:
`pydantic.ValidationError`, `TypeError` and `ValueError` are not. -/
def isWeatherAppError : ClientError → Bool
  | .apiError _ _ => true
  | .invalidAPIKeyError _ _ => true
  | .locationNotFoundError _ => true
  | .rateLimitExceededError _ _ => true
  | _ => false

/-- Python `str(e)` of an escaping exception. `APIError.__init__` passes
`f"API Error {status_code}: {message}"` to `Exception`; the
`ValidationError` rendering abbreviates the pydantic report to the
joined error lines (its exact text is not load-bearing below). -/
def excStr : ClientError → String
  | .apiError st m => "API Error " ++ pyStr st ++ ": " ++ pyStr m
  | .invalidAPIKeyError st m => "API Error " ++ toString st ++ ": " ++ m
  | .locationNotFoundError m => m
  | .rateLimitExceededError st m => "API Error " ++ pyStr st ++ ": " ++ pyStr m
  | .validationError es => String.intercalate "; " es
  | .typeError m => m
  | .valueError m => m

/-- Embeds the two `except` clauses of `cli.get`: a `WeatherAppError` is
rendered as `Error: <msg>` with a specialized message when it is an
`InvalidAPIKeyError`, any other exception as `Unexpected error:
<str(e)>`; both paths `sys.exit(1)`. Returns (exit code, stderr line). -/
def cliCatch (e : ClientError) : Int × String :=
  if isWeatherAppError e then
    let error_msg :=
      match e with
      | .invalidAPIKeyError _ _ =>
        "Invalid or missing API key. Please set the OPENWEATHER_API_KEY environment variable or use the --api-key option."
      | _ => excStr e
    (1, "Error: " ++ error_msg)
  else
    (1, "Unexpected error: " ++ excStr e)

/-- Payload with one key removed. -/
def delKey (kvs : List (String × J)) (key : String) : List (String × J) :=
  kvs.filter (fun p => p.fst != key)

/-- Payload with one key replaced (or appended). -/
def putKey (kvs : List (String × J)) (key : String) (v : J) : List (String × J) :=
  delKey kvs key ++ [(key, v)]

/-- The full valid London payload of `tests/test_weather.py`
(`test_get_weather_by_city_success`). -/
def londonPayload : List (String × J) :=
  [ ("coord", J.obj [("lon", J.f (-1257) 10000), ("lat", J.f 515085 10000)])
  , ("weather", J.arr [J.obj
      [ ("id", J.i 800)
      , ("main", J.s "Clear")
      , ("description", J.s "clear sky")
      , ("icon", J.s "01d") ]])
  , ("base", J.s "stations")
  , ("main", J.obj
      [ ("temp", J.f 155 10)
      , ("feels_like", J.f 148 10)
      , ("temp_min", J.f 140 10)
      , ("temp_max", J.f 160 10)
      , ("pressure", J.i 1012)
      , ("humidity", J.i 72) ])
  , ("visibility", J.i 10000)
  , ("wind", J.obj [("speed", J.f 36 10), ("deg", J.i 200)])
  , ("clouds", J.obj [("all", J.i 0)])
  , ("dt", J.i 1620000000)
  , ("sys", J.obj
      [ ("type", J.i 2)
      , ("id", J.i 2019646)
      , ("country", J.s "GB")
      , ("sunrise", J.i 1619950000)
      , ("sunset", J.i 1620000000) ])
  , ("timezone", J.i 3600)
  , ("id", J.i 2643743)
  , ("name", J.s "London")
  , ("cod", J.i 200) ]

/-- The `WeatherResponse` the London payload validates to. -/
def wLondon : WeatherResponse :=
  { coord := [("lon", ⟨-1257, 10000⟩), ("lat", ⟨515085, 10000⟩)]
  , weather := [{ id := 800, main := "Clear", description := "clear sky", icon := "01d" }]
  , base := "stations"
  , main :=
      { temp := ⟨155, 10⟩
      , feels_like := ⟨148, 10⟩
      , temp_min := ⟨140, 10⟩
      , temp_max := ⟨160, 10⟩
      , pressure := 1012
      , humidity := 72
      , sea_level := none
      , grnd_level := none }
  , visibility := 10000
  , wind := { speed := ⟨36, 10⟩, deg := 200, gust := none }
  , clouds := { all := 0 }
  , dt := 1620000000
  , sys :=
      { type := some 2
      , id := some 2019646
      , country := "GB"
      , sunrise := 1619950000
      , sunset := 1620000000 }
  , timezone := 3600
  , id := 2643743
  , name := "London"
  , cod := 200 }

/-- Trivial stand-in for `datetime.fromtimestamp(...).isoformat()`,
whose rendering no claim depends on. -/
def iso0 : Int → String := fun _ => ""

/-- An all-default output value, used only as the unreachable default of
`Option.getD` when naming a formatter result that is known to exist. -/
def emptyOutput : FormattedOutput :=
  { city := "", country := "", lat := ⟨0, 1⟩, lon := ⟨0, 1⟩
  , weather_main := "", weather_description := "", weather_icon := ""
  , temp_current := ⟨0, 1⟩, temp_feels_like := ⟨0, 1⟩, temp_min := ⟨0, 1⟩
  , temp_max := ⟨0, 1⟩, temp_unit := "", pressure := "", humidity := ""
  , visibility := "", wind_speed := "", wind_degree := none, wind_gust := none
  , clouds := "", rain := none, snow := none, sun_sunrise := "", sun_sunset := ""
  , timezone := none, timestamp := "" }

/-- The required top-level fields of `WeatherResponse` other than `cod`
(which a success payload carries by definition). -/
def requiredTopKeys : List String :=
  [ "coord", "weather", "base", "main", "visibility", "wind"
  , "clouds", "dt", "sys", "timezone", "id", "name" ]

/-- On a payload whose `cod` entry is the integer 200 the client takes
the validation path. -/
lemma gwbc_success_of_cod200 (data : List (String × J))
    (hcod : jget data "cod" = some (J.i 200)) :
    get_weather_by_city (.success data) =
      match validateWeatherResponse data with
      | .ok w => .ok w
      | .error es => .error (.validationError es) := by
  simp only [get_weather_by_city]
  rw [hcod]
  rfl

/-- On a payload whose `cod` entry is present but not numerically 200
the client takes the provider-error dispatch. -/
lemma gwbc_failure_of_cod (data : List (String × J)) (v : J)
    (hcod : jget data "cod" = some v) (hne : pyEqNum v 200 = false) :
    get_weather_by_city (.success data)
      = .error (handle_api_error v ((jget data "message").getD (J.s "Unknown error"))) := by
  simp only [get_weather_by_city]
  rw [hcod]
  simp [codNe200, hne]

/-- A nonempty collected error list makes the client surface
`pydantic.ValidationError`, carrying exactly those errors. -/
lemma gwbc_validation_of_errs (data : List (String × J))
    (hcod : jget data "cod" = some (J.i 200))
    (h : weatherResponseErrors data ≠ []) :
    get_weather_by_city (.success data)
      = .error (.validationError (weatherResponseErrors data)) := by
  rw [gwbc_success_of_cod200 data hcod]
  unfold validateWeatherResponse
  cases hes : weatherResponseErrors data with
  | nil => exact absurd hes h
  | cons e es => rfl

/-- A member of a nonempty part witnesses that the collected error list
is nonempty. -/
lemma wre_ne_nil_of_part (data : List (String × J)) (p : List String)
    (hp : p ∈ weatherResponseParts data) (hne : p ≠ []) :
    weatherResponseErrors data ≠ [] := by
  obtain ⟨x, hx⟩ := List.exists_mem_of_ne_nil p hne
  exact List.ne_nil_of_mem (List.mem_flatten.mpr ⟨p, hp, hx⟩)

/-- A missing required top-level field contributes a `Field required`
error, so the collected error list is nonempty. -/
lemma wre_ne_nil_of_missing (data : List (String × J)) (k : String)
    (hk : k ∈ requiredTopKeys) (hmiss : jget data k = none) :
    weatherResponseErrors data ≠ [] := by
  simp only [requiredTopKeys, List.mem_cons, List.not_mem_nil, or_false] at hk
  rcases hk with rfl | rfl | rfl | rfl | rfl | rfl | rfl | rfl | rfl | rfl | rfl | rfl
  · exact wre_ne_nil_of_part data (reqErrsE data "coord" validateFloatDict)
      (by simp [weatherResponseParts]) (by simp [reqErrsE, hmiss])
  · exact wre_ne_nil_of_part data (reqErrsE data "weather" validateConditionList)
      (by simp [weatherResponseParts]) (by simp [reqErrsE, hmiss])
  · exact wre_ne_nil_of_part data (reqErrsS data "base" validateStr)
      (by simp [weatherResponseParts]) (by simp [reqErrsS, hmiss])
  · exact wre_ne_nil_of_part data (reqErrsE data "main" validateMainWeatherData)
      (by simp [weatherResponseParts]) (by simp [reqErrsE, hmiss])
  · exact wre_ne_nil_of_part data (reqErrsS data "visibility" validateInt)
      (by simp [weatherResponseParts]) (by simp [reqErrsS, hmiss])
  · exact wre_ne_nil_of_part data (reqErrsE data "wind" validateWindData)
      (by simp [weatherResponseParts]) (by simp [reqErrsE, hmiss])
  · exact wre_ne_nil_of_part data (reqErrsE data "clouds" validateCloudData)
      (by simp [weatherResponseParts]) (by simp [reqErrsE, hmiss])
  · exact wre_ne_nil_of_part data (reqErrsS data "dt" validateInt)
      (by simp [weatherResponseParts]) (by simp [reqErrsS, hmiss])
  · exact wre_ne_nil_of_part data (reqErrsE data "sys" validateSystemData)
      (by simp [weatherResponseParts]) (by simp [reqErrsE, hmiss])
  · exact wre_ne_nil_of_part data (reqErrsS data "timezone" validateInt)
      (by simp [weatherResponseParts]) (by simp [reqErrsS, hmiss])
  · exact wre_ne_nil_of_part data (reqErrsS data "id" validateInt)
      (by simp [weatherResponseParts]) (by simp [reqErrsS, hmiss])
  · exact wre_ne_nil_of_part data (reqErrsS data "name" validateStr)
      (by simp [weatherResponseParts]) (by simp [reqErrsS, hmiss])

/-- A wind object without a `deg` entry makes the collected error list
nonempty, whatever the rest of the payload holds. -/
lemma wre_ne_nil_of_wind_missing_deg (data wo : List (String × J))
    (hw : jget data "wind" = some (J.obj wo)) (hdeg : jget wo "deg" = none) :
    weatherResponseErrors data ≠ [] := by
  have hdegmem : ("deg" ++ ": Field required") ∈ windErrors wo :=
    List.mem_flatten.mpr
      ⟨reqErrsS wo "deg" validateInt, by simp [windParts], by simp [reqErrsS, hdeg]⟩
  have hwerr : validateWindData (J.obj wo) = .error (windErrors wo) := by
    show (match windErrors wo with
      | [] => Except.ok (buildWind wo)
      | es => Except.error es) = .error (windErrors wo)
    cases hes : windErrors wo with
    | nil => exact absurd (hes ▸ hdegmem) (List.not_mem_nil _)
    | cons e es => rfl
  have hpart : reqErrsE data "wind" validateWindData
      = (windErrors wo).map (fun e => "wind" ++ "." ++ e) := by
    simp only [reqErrsE, hw, hwerr]
  refine wre_ne_nil_of_part data (reqErrsE data "wind" validateWindData)
    (by simp [weatherResponseParts]) ?_
  rw [hpart]
  exact List.ne_nil_of_mem (List.mem_map.mpr ⟨_, hdegmem, rfl⟩)

/-- Elimination form of the formatter: a `some` result pins down the
coordinate lookups, a nonempty condition list, and every output field. -/
lemma format_weather_data_eq_some (w : WeatherResponse) (units : String)
    (isoLocal : Int → String) (now : String) (out : FormattedOutput)
    (hout : format_weather_data w units isoLocal now = some out) :
    ∃ la lo w0 ws, List.lookup "lat" w.coord = some la
      ∧ List.lookup "lon" w.coord = some lo
      ∧ w.weather = w0 :: ws
      ∧ out =
        { city := w.name
        , country := w.sys.country
        , lat := la
        , lon := lo
        , weather_main := w0.main
        , weather_description := w0.description
        , weather_icon := w0.icon
        , temp_current := w.main.temp
        , temp_feels_like := w.main.feels_like
        , temp_min := w.main.temp_min
        , temp_max := w.main.temp_max
        , temp_unit := if units == "metric" then "°C" else "°F"
        , pressure := toString w.main.pressure ++ " hPa"
        , humidity := toString w.main.humidity ++ "%"
        , visibility :=
            if w.visibility != 0 then fmtFixed1 w.visibility 1000 ++ " km" else "N/A"
        , wind_speed :=
            pyFloatStr w.wind.speed ++ " " ++ (if units == "metric" then "m/s" else "mph")
        , wind_degree := some w.wind.deg
        , wind_gust := w.wind.gust
        , clouds := toString w.clouds.all ++ "%"
        , rain := none
        , snow := none
        , sun_sunrise := isoLocal w.sys.sunrise
        , sun_sunset := isoLocal w.sys.sunset
        , timezone := some w.timezone
        , timestamp := now } := by
  unfold format_weather_data at hout
  rcases hla : List.lookup "lat" w.coord with _ | la <;>
    rcases hlo : List.lookup "lon" w.coord with _ | lo <;>
      rcases hw : w.weather with _ | ⟨w0, ws⟩ <;>
        rw [hla, hlo, hw] at hout
  case _ => exact Option.noConfusion hout
  case _ => exact Option.noConfusion hout
  case _ => exact Option.noConfusion hout
  case _ => exact Option.noConfusion hout
  case _ => exact Option.noConfusion hout
  case _ => exact Option.noConfusion hout
  case _ => exact Option.noConfusion hout
  case _ => exact ⟨la, lo, w0, ws, rfl, rfl, rfl, (Option.some.inj hout).symm⟩

/-- London payload whose `wind` object omits `deg`. -/
def windNoDegPayload : List (String × J) :=
  putKey londonPayload "wind" (J.obj [("speed", J.f 36 10)])

/-- Second wind-without-deg payload, carrying a gust entry. -/
def windNoDegPayload2 : List (String × J) :=
  putKey londonPayload "wind" (J.obj [("speed", J.f 36 10), ("gust", J.f 5 10)])

/-- London payload extended with a `rain` object. -/
def rainPayload : List (String × J) :=
  putKey londonPayload "rain" (J.obj [("1h", J.f 5 10)])

/-- The formatter output for the validated London report, metric units. -/
def outLondonMetric : FormattedOutput :=
  (format_weather_data wLondon "metric" iso0 "").getD emptyOutput

/-- The formatter output for the validated London report, imperial units. -/
def outLondonImperial : FormattedOutput :=
  (format_weather_data wLondon "imperial" iso0 "").getD emptyOutput

/-- C1: the claim says a payload with `cod: 401` makes the client raise
the Invalid-credentials error and the CLI print a credential message.
The code disagrees with the claim and with its own test
(`test_get_weather_by_city_api_error` expects an `APIError`): the
dispatcher calls `InvalidAPIKeyError(status_code_int, message)`, but
that initializer accepts only a message, so a builtin `TypeError`
escapes; it is not a `WeatherAppError`, and the CLI prints
`Unexpected error: ...` with no mention of the credential, exiting 1. -/
theorem c1_cod401_typeerror_not_invalid_credentials :
    get_weather_by_city (.success [("cod", J.i 401), ("message", J.s "Invalid API key")])
      = .error (.typeError
        "InvalidAPIKeyError.__init__() takes 2 positional arguments but 3 were given")
    ∧ isWeatherAppError (.typeError
        "InvalidAPIKeyError.__init__() takes 2 positional arguments but 3 were given") = false
    ∧ cliCatch (.typeError
        "InvalidAPIKeyError.__init__() takes 2 positional arguments but 3 were given")
      = (1, "Unexpected error: InvalidAPIKeyError.__init__() takes 2 positional arguments but 3 were given") :=
  ⟨rfl, rfl, rfl⟩

/-- C2 counterexample: a fully valid payload whose `cod` is the string
`"200"` is NOT treated as success — `data.get("cod") != 200` compares
the raw value, and a string never equals an int, so the failure dispatch
runs and raises the generic provider error with code 200. -/
theorem c2_cod_string_200_counterexample :
    get_weather_by_city (.success (putKey londonPayload "cod" (J.s "200")))
      = .error (.apiError (J.i 200) (J.s "Unknown error")) := rfl

/-- C2 amended: the `cod` field is normalized to an integer only inside
the error dispatcher, after the success test has compared the raw value
with the integer 200. Both the integer 404 and the string `"404"`
dispatch to Location-not-found with the provider message included, and
an integer 200 is success — but the string `"200"` takes the failure
path and raises the generic provider error with code 200. -/
theorem c2_cod_normalization_amended (data : List (String × J)) :
    (jget data "cod" = some (J.i 404) →
      get_weather_by_city (.success data) = .error (.locationNotFoundError
        ("Location not found: " ++ pyStr ((jget data "message").getD (J.s "Unknown error")))))
  ∧ (jget data "cod" = some (J.s "404") →
      get_weather_by_city (.success data) = .error (.locationNotFoundError
        ("Location not found: " ++ pyStr ((jget data "message").getD (J.s "Unknown error")))))
  ∧ (jget data "cod" = some (J.s "200") →
      get_weather_by_city (.success data)
        = .error (.apiError (J.i 200) ((jget data "message").getD (J.s "Unknown error"))))
  ∧ (jget data "cod" = some (J.i 200) →
      get_weather_by_city (.success data) = .ok (buildWeatherResponse data)
      ∨ get_weather_by_city (.success data)
        = .error (.validationError (weatherResponseErrors data))) := by
  refine ⟨?_, ?_, ?_, ?_⟩
  · intro h
    rw [gwbc_failure_of_cod data (J.i 404) h rfl]
    rfl
  · intro h
    rw [gwbc_failure_of_cod data (J.s "404") h rfl]
    rfl
  · intro h
    rw [gwbc_failure_of_cod data (J.s "200") h rfl]
    rfl
  · intro h
    rw [gwbc_success_of_cod200 data h]
    unfold validateWeatherResponse
    cases hes : weatherResponseErrors data with
    | nil => left; rfl
    | cons e es => right; rfl

/-- C2 witness: the string-`"404"` dispatch at a concrete payload. -/
theorem c2_cod_normalization_amended_witness :
    get_weather_by_city (.success (putKey londonPayload "cod" (J.s "404")))
      = .error (.locationNotFoundError "Location not found: Unknown error") :=
  (c2_cod_normalization_amended (putKey londonPayload "cod" (J.s "404"))).2.1 rfl

/-- C3: on a success payload (integer `cod` 200), a missing required
top-level field makes construction fail with `pydantic.ValidationError`,
and every failure on this path is of that kind — never the
provider-status-derived kinds (`LocationNotFoundError`,
`InvalidAPIKeyError`, `RateLimitExceededError`, generic `APIError`),
which are distinct constructors of the error type. -/
theorem c3_missing_field_validation_error_kind (data : List (String × J))
    (hcod : jget data "cod" = some (J.i 200)) :
    (∀ k, k ∈ requiredTopKeys → jget data k = none →
      get_weather_by_city (.success data)
        = .error (.validationError (weatherResponseErrors data)))
  ∧ (∀ c, get_weather_by_city (.success data) = .error c →
      ∃ es, c = .validationError es) := by
  constructor
  · intro k hk hmiss
    exact gwbc_validation_of_errs data hcod (wre_ne_nil_of_missing data k hk hmiss)
  · intro c hc
    rw [gwbc_success_of_cod200 data hcod] at hc
    cases hv : validateWeatherResponse data with
    | ok w => rw [hv] at hc; exact Except.noConfusion hc
    | error es => rw [hv] at hc; exact ⟨es, (Except.error.inj hc).symm⟩

/-- C3 witness: dropping the required `main` object from the London
payload produces the validation error kind. -/
theorem c3_missing_field_validation_error_kind_witness :
    get_weather_by_city (.success (delKey londonPayload "main"))
      = .error (.validationError ["main: Field required"]) :=
  (c3_missing_field_validation_error_kind (delKey londonPayload "main") rfl).1
    "main" (by simp [requiredTopKeys]) rfl

/-- C4: every transport-level failure (connection error, timeout,
HTTP-level error, malformed body) surfaces as the generic `APIError`
carrying the status code of the attached response — 500 when the
exception carries none — and the transport failure message. -/
theorem c4_transport_failure_generic_api_error (respStatus : Option Int) (msg : String) :
    get_weather_by_city (.fail respStatus msg)
      = .error (.apiError (J.i (respStatus.getD 500)) (J.s msg)) := rfl

/-- C5 counterexample: `visibility` is declared `visibility: int` with
no `Optional` and no default, so a payload lacking it fails validation —
a validated report can never lack visibility, refuting the optionality
part of the claim at this concrete input. -/
theorem c5_visibility_required_counterexample :
    get_weather_by_city (.success (delKey londonPayload "visibility"))
      = .error (.validationError ["visibility: Field required"]) := rfl

/-- C5 amended: visibility is a required field of the report — a success
payload without it fails validation with the contract error kind — and
formatting renders a visibility of 10000 meters as `"10.0 km"` (meters
divided by 1000, one decimal place) and a zero visibility as `"N/A"`
(the absent case cannot reach the formatter). -/
theorem c5_visibility_amended :
    (∀ data, jget data "cod" = some (J.i 200) → jget data "visibility" = none →
      get_weather_by_city (.success data)
        = .error (.validationError (weatherResponseErrors data)))
  ∧ (∀ w units isoLocal now out,
      format_weather_data w units isoLocal now = some out →
        (w.visibility = 10000 → out.visibility = "10.0 km")
        ∧ (w.visibility = 0 → out.visibility = "N/A")) := by
  constructor
  · intro data h1 h2
    exact gwbc_validation_of_errs data h1
      (wre_ne_nil_of_missing data "visibility" (by simp [requiredTopKeys]) h2)
  · intro w units isoLocal now out hout
    obtain ⟨la, lo, w0, ws, hla, hlo, hw, rfl⟩ :=
      format_weather_data_eq_some w units isoLocal now out hout
    constructor
    · intro hv
      show (if w.visibility != 0 then fmtFixed1 w.visibility 1000 ++ " km" else "N/A")
        = "10.0 km"
      rw [hv]
      rfl
    · intro hv
      show (if w.visibility != 0 then fmtFixed1 w.visibility 1000 ++ " km" else "N/A")
        = "N/A"
      rw [hv]
      rfl

/-- C5 witness: both halves at concrete inputs — the London payload
without `visibility` fails validation, and the validated London report
(visibility 10000) formats as `"10.0 km"`. -/
theorem c5_visibility_amended_witness :
    get_weather_by_city (.success (delKey londonPayload "visibility"))
      = .error (.validationError (weatherResponseErrors (delKey londonPayload "visibility")))
    ∧ outLondonMetric.visibility = "10.0 km" :=
  ⟨c5_visibility_amended.1 (delKey londonPayload "visibility") rfl rfl,
   (c5_visibility_amended.2 wLondon "metric" iso0 "" outLondonMetric rfl).1 rfl⟩

/-- C6 counterexample: `deg` is declared `deg: int` with no `Optional`
and no default, so an otherwise-valid payload whose wind object omits
the direction degrees fails validation instead of succeeding with an
absent degree — refuting the claim at this concrete input. -/
theorem c6_wind_deg_required_counterexample :
    get_weather_by_city (.success windNoDegPayload)
      = .error (.validationError ["wind.deg: Field required"]) := rfl

/-- C6 amended: wind direction degrees is a required field — for every
success payload whose wind object omits `deg`, construction fails with
the validation/contract error kind rather than succeeding. -/
theorem c6_wind_deg_amended (data wo : List (String × J))
    (hcod : jget data "cod" = some (J.i 200))
    (hw : jget data "wind" = some (J.obj wo))
    (hdeg : jget wo "deg" = none) :
    get_weather_by_city (.success data)
      = .error (.validationError (weatherResponseErrors data)) :=
  gwbc_validation_of_errs data hcod (wre_ne_nil_of_wind_missing_deg data wo hw hdeg)

/-- C6 witness: the amended statement at a concrete wind object that
carries speed and gust but no `deg`. -/
theorem c6_wind_deg_amended_witness :
    get_weather_by_city (.success windNoDegPayload2)
      = .error (.validationError ["wind.deg: Field required"]) :=
  c6_wind_deg_amended windNoDegPayload2 [("speed", J.f 36 10), ("gust", J.f 5 10)]
    rfl rfl rfl

/-- C7 counterexample: a payload carrying a `rain` object validates (the
model declares no such field; extra keys are dropped), and the formatter
output's rain field is `None`, not the payload value — refuting the
pass-through claim at this concrete input. -/
theorem c7_rain_present_rendered_null_counterexample :
    jget rainPayload "rain" = some (J.obj [("1h", J.f 5 10)])
    ∧ get_weather_by_city (.success rainPayload) = .ok wLondon
    ∧ (format_weather_data wLondon "metric" iso0 "").map (fun o => o.rain) = some none
    ∧ (format_weather_data wLondon "metric" iso0 "").map (fun o => o.rain)
        ≠ some (some (J.obj [("1h", J.f 5 10)])) := by
  refine ⟨rfl, rfl, rfl, ?_⟩
  intro h
  rw [show (format_weather_data wLondon "metric" iso0 "").map (fun o => o.rain)
      = some none from rfl] at h
  exact Option.noConfusion (Option.some.inj h)

/-- C7 amended: the formatter's rain and snow output fields are always
null — `WeatherResponse` declares neither field, the pydantic
configuration drops the payload keys at validation, and the `hasattr`
probes in the formatter therefore always fail. -/
theorem c7_rain_snow_always_null_amended (w : WeatherResponse) (units : String)
    (isoLocal : Int → String) (now : String) (out : FormattedOutput)
    (hout : format_weather_data w units isoLocal now = some out) :
    out.rain = none ∧ out.snow = none := by
  obtain ⟨la, lo, w0, ws, hla, hlo, hw, rfl⟩ :=
    format_weather_data_eq_some w units isoLocal now out hout
  exact ⟨rfl, rfl⟩

/-- C7 witness: the amended statement at the validated London report. -/
theorem c7_rain_snow_always_null_amended_witness :
    outLondonMetric.rain = none ∧ outLondonMetric.snow = none :=
  c7_rain_snow_always_null_amended wLondon "metric" iso0 "" outLondonMetric rfl

/-- C8: for every validated report, formatting with metric units yields
temperature unit label `°C` and a wind-speed string labelled `m/s`, and
imperial units yield `°F` and `mph`, whatever numeric values the report
carries. -/
theorem c8_unit_labels (w : WeatherResponse) (isoLocal : Int → String)
    (now : String) (out : FormattedOutput) :
    (format_weather_data w "metric" isoLocal now = some out →
      out.temp_unit = "°C" ∧ ∃ p, out.wind_speed = p ++ " m/s")
  ∧ (format_weather_data w "imperial" isoLocal now = some out →
      out.temp_unit = "°F" ∧ ∃ p, out.wind_speed = p ++ " mph") := by
  constructor
  · intro hout
    obtain ⟨la, lo, w0, ws, hla, hlo, hw, rfl⟩ :=
      format_weather_data_eq_some w "metric" isoLocal now out hout
    refine ⟨rfl, pyFloatStr w.wind.speed, ?_⟩
    show pyFloatStr w.wind.speed ++ " " ++ "m/s" = pyFloatStr w.wind.speed ++ " m/s"
    rw [String.append_assoc]
    rfl
  · intro hout
    obtain ⟨la, lo, w0, ws, hla, hlo, hw, rfl⟩ :=
      format_weather_data_eq_some w "imperial" isoLocal now out hout
    refine ⟨rfl, pyFloatStr w.wind.speed, ?_⟩
    show pyFloatStr w.wind.speed ++ " " ++ "mph" = pyFloatStr w.wind.speed ++ " mph"
    rw [String.append_assoc]
    rfl

/-- C8 witness: both unit selections at the validated London report,
with the concrete speed strings. -/
theorem c8_unit_labels_witness :
    outLondonMetric.temp_unit = "°C" ∧ outLondonMetric.wind_speed = "3.6 m/s"
    ∧ outLondonImperial.temp_unit = "°F" ∧ outLondonImperial.wind_speed = "3.6 mph" :=
  ⟨((c8_unit_labels wLondon iso0 "" outLondonMetric).1 rfl).1, rfl,
   ((c8_unit_labels wLondon iso0 "" outLondonImperial).2 rfl).1, rfl⟩

/-- C9: the query term is `city,country` when a (nonempty) country code
is supplied and exactly `city` when none is; the CLI turns the location
`London,uk` into city London with country uk, whose query term is
`London,uk`, while `London` alone stays `London`. -/
theorem c9_query_term :
    (∀ city cc, cc ≠ "" → queryTerm city (some cc) = city ++ "," ++ cc)
  ∧ (∀ city, queryTerm city none = city)
  ∧ cliSplitLocation "London,uk" none = ("London", some "uk")
  ∧ queryTerm "London" (some "uk") = "London,uk"
  ∧ cliSplitLocation "London" none = ("London", none)
  ∧ queryTerm "London" none = "London" := by
  refine ⟨?_, fun city => rfl, rfl, rfl, rfl, rfl⟩
  intro city cc h
  show (if cc == "" then city else city ++ "," ++ cc) = city ++ "," ++ cc
  rw [if_neg (by simp [h])]

/-- C9 witness: the nonempty-country branch at concrete inputs. -/
theorem c9_query_term_witness : queryTerm "Paris" (some "fr") = "Paris,fr" :=
  c9_query_term.1 "Paris" "fr" (by decide)

/-- C10: when the location contains a comma, the stripped second
comma-separated segment becomes the country code regardless of any
`--country` option (the `country` argument does not occur in the
result), and segments beyond the second are discarded. -/
theorem c10_embedded_country_overrides_option (loc : String) (country : Option String)
    (p1 p2 : String) (rest : List String)
    (hc : containsComma loc = true)
    (hp : (pySplitChar ',' loc.toList).map (fun p => pyStrip (String.mk p))
      = p1 :: p2 :: rest) :
    cliSplitLocation loc country = (p1, some p2) := by
  unfold cliSplitLocation
  split
  · simp only [hp]
  · exact absurd hc (by assumption)

/-- C10 witness: a three-segment location with whitespace and a
conflicting `--country de` option still yields the embedded country. -/
theorem c10_embedded_country_overrides_option_witness :
    cliSplitLocation "Paris, fr ,ignored" (some "de") = ("Paris", some "fr") :=
  c10_embedded_country_overrides_option "Paris, fr ,ignored" (some "de")
    "Paris" "fr" ["ignored"] rfl rfl

end WeatherApp
